import Mathlib

/-
Verification of the task-decomposition and orchestration core of the
SORT (Software Operation and Resource Team) multi-agent DevOps studio.

The development shallowly embeds three Python modules:
 * `Legacy`  — src/setup/legacy/main_llm_agent.py
               (ProjectAnalyzer, WorkflowOrchestrator, CTOAgent)
 * `Orch`    — src/agents/agent_interface.py
               (AgentOrchestrator: registration, workflow dispatch, tracking)
 * `Proto`   — src/agents/cto/cto_agent.py with src/protocols/base_agent.py
               (message-protocol CTO hub)

Python dictionaries are modelled as insertion-ordered association lists
(Python dict keys are unique, so theorems that depend on dict semantics
carry a Nodup hypothesis on the key list); raised exceptions are
modelled with `Except`/`Option`.
-/

/-! ## String helpers

Python's `needle in hay` substring test and `str.lower`, modelled over
character lists so that everything evaluates by `decide`. -/

/-- `charsLeading needle hay` is true when `needle` is an initial segment
of `hay` (helper for the substring test). -/
def charsLeading : List Char → List Char → Bool
  | [], _ => true
  | _ :: _, [] => false
  | a :: as, b :: bs => a == b && charsLeading as bs

/-- `charsContain hay needle` is true when `needle` occurs contiguously
inside `hay` (Python's `needle in hay` on strings). -/
def charsContain (hay needle : List Char) : Bool :=
  match hay with
  | [] => needle.isEmpty
  | _ :: t => charsLeading needle hay || charsContain t needle

/-- Python `needle in hay` substring test on strings. -/
def strContains (hay needle : String) : Bool :=
  charsContain hay.toList needle.toList

/-- Python `str.lower()` (ASCII behaviour, which is all the source uses). -/
def strLower (s : String) : String :=
  String.mk (s.toList.map Char.toLower)

/-- Python `str.isspace()` on a single character: the Unicode whitespace
set Python strips — tab, LF, VT, FF, CR, FS/GS/RS/US, space, NEL, NBSP,
Ogham space, the U+2000–U+200A spaces, LS, PS, NNBSP, MMSP, and
ideographic space. -/
def pyIsSpace (c : Char) : Bool :=
  [0x09, 0x0A, 0x0B, 0x0C, 0x0D, 0x1C, 0x1D, 0x1E, 0x1F, 0x20, 0x85, 0xA0,
   0x1680, 0x2028, 0x2029, 0x202F, 0x205F, 0x3000].contains c.toNat ||
  (0x2000 ≤ c.toNat && c.toNat ≤ 0x200A)

/-- Python `str.strip()`: drop leading and trailing Python whitespace. -/
def strStrip (s : String) : String :=
  String.mk (((s.toList.dropWhile pyIsSpace).reverse.dropWhile
    pyIsSpace).reverse)

/-- Python `str.startswith(pre)`. -/
def strStarts (s pre : String) : Bool :=
  charsLeading pre.toList s.toList

namespace Legacy

/-! ## src/setup/legacy/main_llm_agent.py -/

/-- TaskAssignment dataclass (main_llm_agent.py lines 39-52). -/
structure TaskAssignment where
  role : String
  action : String
  task : String
deriving Repr, DecidableEq

/-- TaskAssignment.to_dict. -/
def TaskAssignment.to_dict (a : TaskAssignment) : List (String × String) :=
  [("role", a.role), ("action", a.action), ("task", a.task)]

/-- Result of ProjectAnalyzer.analyze_prompt: the returned dict
(goals / features / constraints.urgency / constraints.complexity /
original_prompt), lines 103-111. -/
structure ProjectAnalysis where
  goals : List String
  features : List String
  urgency : String
  complexity : String
  original_prompt : String
deriving Repr, DecidableEq

/-- ProjectAnalyzer.__init__ keyword table (lines 59-68), in Python dict
insertion order. -/
def analyzerKeywords : List (String × List String) :=
  [("authentication", ["login", "auth", "signin", "signup", "password", "user management"]),
   ("database", ["database", "db", "sql", "nosql", "storage", "persist"]),
   ("api", ["api", "rest", "endpoint", "service", "backend"]),
   ("frontend", ["frontend", "ui", "interface", "web", "react", "vue", "angular"]),
   ("security", ["security", "secure", "encryption", "vulnerability", "ssl", "https"]),
   ("deployment", ["deploy", "production", "staging", "docker", "kubernetes", "cloud"]),
   ("testing", ["test", "testing", "unit test", "integration", "qa"]),
   ("monitoring", ["monitor", "logging", "metrics", "analytics", "performance"])]

/-- Urgency keyword list (line 91). -/
def urgencyKeywords : List String := ["urgent", "asap", "immediately", "rush"]

/-- Deferral keyword list (line 93). -/
def deferralKeywords : List String := ["future", "later", "eventually"]

/-- Low-complexity keyword list (line 98). -/
def lowComplexityKeywords : List String := ["simple", "basic", "small", "minimal"]

/-- High-complexity keyword list (line 100). -/
def highComplexityKeywords : List String := ["complex", "enterprise", "large-scale", "advanced"]

/-- ProjectAnalyzer._extract_goals (lines 116-129): split on periods, keep
stripped sentences that start with an imperative verb or mention
need/want, default goal when none qualifies. -/
def extractGoals (prompt : String) : List String :=
  let sentences := prompt.splitOn "."
  let goals := sentences.filterMap (fun s0 =>
    let s := strStrip s0
    if s ≠ "" ∧
        ((["create", "build", "develop", "implement", "design"].any
            (fun v => strStarts (strLower s) v)) ∨
          strContains (strLower s) "need" ∨ strContains (strLower s) "want")
    then some s else none)
  if goals.isEmpty then ["Develop the requested application"] else goals

/-- ProjectAnalyzer.analyze_prompt (lines 70-111): keyword feature
detection, urgency and complexity classification, goal extraction. -/
def analyzePrompt (user_prompt : String) : ProjectAnalysis :=
  let prompt_lower := strLower user_prompt
  let detected_features :=
    (analyzerKeywords.filter
      (fun fk => fk.2.any (fun k => strContains prompt_lower k))).map Prod.fst
  let urgency :=
    if urgencyKeywords.any (fun w => strContains prompt_lower w) then "high"
    else if deferralKeywords.any (fun w => strContains prompt_lower w) then "low"
    else "normal"
  let complexity :=
    if lowComplexityKeywords.any (fun w => strContains prompt_lower w) then "low"
    else if highComplexityKeywords.any (fun w => strContains prompt_lower w) then "high"
    else "medium"
  { goals := extractGoals user_prompt
    features := detected_features
    urgency := urgency
    complexity := complexity
    original_prompt := user_prompt }

/-- CTOAgent.__init__ agent_capabilities metadata (lines 219-245):
role title, specialties, default action per agent id. -/
structure AgentCapability where
  role : String
  specialties : List String
  action : String
deriving Repr, DecidableEq

/-- Capability entry for "coder1" (Senior Backend Developer). -/
def coder1Capability : AgentCapability :=
  { role := "Senior Backend Developer"
    specialties := ["backend", "api", "database", "authentication"]
    action := "Write code" }

/-- Capability entry for "coder2" (Frontend Developer). -/
def coder2Capability : AgentCapability :=
  { role := "Frontend Developer"
    specialties := ["frontend", "ui", "web", "client-side"]
    action := "Write code" }

/-- Capability entry for "tester" (Software Tester). -/
def testerCapability : AgentCapability :=
  { role := "Software Tester"
    specialties := ["testing", "qa", "automation", "integration"]
    action := "Test code" }

/-- CTOAgent._decompose_and_assign (lines 298-381): conditional backend and
frontend assignments, unconditional tester assignment whose scope depends
on the analysis complexity; result in Python dict insertion order. -/
def decomposeAndAssign (analysis : ProjectAnalysis) : List (String × TaskAssignment) :=
  let features := analysis.features
  let complexity := analysis.complexity
  let backendPart :=
    if ["authentication", "database", "api"].any (fun f => features.contains f) then
      let backend_tasks :=
        (if features.contains "authentication"
          then ["user authentication and authorization system"] else []) ++
        (if features.contains "database"
          then ["database schema and data models"] else []) ++
        (if features.contains "api"
          then ["REST API endpoints and business logic"] else [])
      let task_desc := "Implement " ++ String.intercalate ", " backend_tasks
      [("coder1", TaskAssignment.mk coder1Capability.role coder1Capability.action task_desc)]
    else []
  let frontendPart :=
    if features.contains "frontend" then
      let frontend_task :=
        "Develop responsive user interface and client-side functionality" ++
          (if features.contains "authentication" then " including login/signup forms" else "")
      [("coder2", TaskAssignment.mk coder2Capability.role coder2Capability.action frontend_task)]
    else []
  let test_scope :=
    if complexity == "high" then
      "comprehensive unit and integration tests with performance and load testing"
    else if complexity == "low" then
      "basic unit tests and functionality verification"
    else
      "comprehensive unit and integration tests"
  backendPart ++ frontendPart ++
    [("tester", TaskAssignment.mk testerCapability.role testerCapability.action
        ("Perform " ++ test_scope ++ " on all implemented components"))]

/-- WorkflowOrchestrator.__init__ workflow rule flag (lines 135-140). -/
def testingBeforeDeployment : Bool := true

/-- WorkflowOrchestrator.validate_workflow (lines 142-178). -/
def validateWorkflow (task_assignments : List (String × TaskAssignment)) : Bool :=
  let has_deployment :=
    task_assignments.any (fun p => p.2.action == "Deploy application")
  let has_testing :=
    task_assignments.any (fun p => p.2.action == "Test code")
  !(has_deployment && !has_testing && testingBeforeDeployment)

/-- The priority dict of WorkflowOrchestrator.get_execution_order
(lines 191-197). -/
def priorityTable : List (String × Nat) := [("Write code", 1), ("Test code", 3)]

/-- `priority_map.get(action, 999)` (line 202). -/
def actionPriority (action : String) : Nat :=
  (priorityTable.lookup action).getD 999

/-- The stable sort of the assignment entries underlying
WorkflowOrchestrator.get_execution_order: Python's `sorted` is a stable
merge sort keyed here on the action priority. -/
def sortedAssignments (task_assignments : List (String × TaskAssignment)) :
    List (String × TaskAssignment) :=
  task_assignments.mergeSort
    (fun a b => decide (actionPriority a.2.action ≤ actionPriority b.2.action))

/-- WorkflowOrchestrator.get_execution_order (lines 180-205): agent names
sorted by action priority, ties kept in insertion order. -/
def getExecutionOrder (task_assignments : List (String × TaskAssignment)) : List String :=
  (sortedAssignments task_assignments).map Prod.fst

/-- CTOAgent._ensure_workflow_compliance (lines 383-403): add the missing
mandatory tester assignment without removing existing ones. -/
def ensureWorkflowCompliance (assignments : List (String × TaskAssignment)) :
    List (String × TaskAssignment) :=
  if (assignments.lookup "tester").isSome then assignments
  else assignments ++
    [("tester", TaskAssignment.mk testerCapability.role testerCapability.action
        "Perform mandatory testing before deployment")]

/-- The analysis step of CTOAgent.process_user_request (lines 257-265): the
empty-or-whitespace guard (`if not user_prompt or not user_prompt.strip()`,
raising `ValueError("User prompt cannot be empty")`) followed by
ProjectAnalyzer.analyze_prompt. -/
def analyze (user_prompt : String) : Except String ProjectAnalysis :=
  if user_prompt == "" || strStrip user_prompt == "" then
    .error "User prompt cannot be empty"
  else
    .ok (analyzePrompt user_prompt)

/-- CTOAgent._format_output (lines 405-410). -/
def formatOutput (task_assignments : List (String × TaskAssignment)) :
    List (String × List (String × String)) :=
  task_assignments.map (fun p => (p.1, p.2.to_dict))

/-- CTOAgent.process_user_request (lines 247-296): analyze, decompose,
validate (with one compliance-fix pass), order, format; any raised error is
caught and surfaced as an error result. -/
def processUserRequest (user_prompt : String) :
    Except String (List (String × List (String × String))) :=
  match analyze user_prompt with
  | .error e => .error ("Error processing user request: " ++ e)
  | .ok analysis =>
    let task_assignments := decomposeAndAssign analysis
    let task_assignments :=
      if validateWorkflow task_assignments then task_assignments
      else ensureWorkflowCompliance task_assignments
    .ok (formatOutput task_assignments)

end Legacy

namespace Orch

/-! ## src/agents/agent_interface.py

The orchestrator is polymorphic in the opaque agent result payload `ρ`;
an agent behaviour is a function from the task-assignment dict to either
a result or a raised exception message (`Except`). -/

/-- TaskStatus enum (agent_interface.py lines 17-22). -/
inductive TaskStatus
  | pending
  | in_progress
  | completed
  | failed
deriving Repr, DecidableEq

/-- A task-assignment dict `Dict[str, str]`. -/
abbrev TaskDict := List (String × String)

/-- Behaviour of a worker agent's execute_task: returns a result payload or
raises (modelled as `Except.error` carrying `str(e)`). -/
abbrev AgentFn (ρ : Type) := TaskDict → Except String ρ

/-- TaskExecution dataclass (lines 25-35). -/
structure TaskExecution (ρ : Type) where
  task_id : String
  agent_name : String
  task_assignment : TaskDict
  status : TaskStatus
  start_time : Option String := none
  end_time : Option String := none
  result : Option ρ := none
  error_message : Option String := none
deriving Repr, DecidableEq

/-- The workflow_status dict of AgentOrchestrator.__init__ (lines 69-74). -/
structure WorkflowStatus where
  active : Bool
  current_tasks : List (String × String)
  progress : Nat
  total_tasks : Nat
deriving Repr, DecidableEq

/-- AgentOrchestrator mutable state (lines 65-74): registry, task queue,
completed list, workflow-status dict. -/
structure OrchestratorState (ρ : Type) where
  agents : List (String × AgentFn ρ)
  task_queue : List (TaskExecution ρ)
  completed_tasks : List (TaskExecution ρ)
  workflow_status : WorkflowStatus

/-- The error string `f"Agent '{name}' not registered"` (lines 117, 225). -/
def notRegisteredMsg (name : String) : String :=
  "Agent \x27" ++ name ++ "\x27 not registered"

/-- WorkflowResult summary dict (lines 173-178). -/
structure WorkflowSummary where
  total_tasks : Nat
  successful : Nat
  failed : Nat
  success_rate : String
deriving Repr, DecidableEq

/-- The workflow_result dict built at lines 169-179. -/
structure WorkflowResult (ρ : Type) where
  success : Bool
  results : List (String × ρ)
  errors : List (String × String)
  summary : WorkflowSummary
deriving Repr, DecidableEq

/-- One-decimal percentage string: Python's
`f"{(successful/total)*100:.1f}%"` at line 177.  The exact rational is
rendered rounded half-to-even to one decimal, which agrees with the float
format except on binary-representation edge cases (no claim depends on the
non-zero-total branch). -/
def fmtPercent (successful total : Nat) : String :=
  let num := successful * 1000
  let q := num / total
  let r := num % total
  let rounded :=
    if 2 * r > total then q + 1
    else if 2 * r < total then q
    else if q % 2 == 0 then q else q + 1
  toString (rounded / 10) ++ "." ++ toString (rounded % 10) ++ "%"

/-- Accumulator of the dispatch loop of execute_workflow (lines 111-162):
results and errors dicts plus the mutated orchestrator bookkeeping. -/
structure WfAcc (ρ : Type) where
  results : List (String × ρ)
  errors : List (String × String)
  queue : List (TaskExecution ρ)
  completed : List (TaskExecution ρ)
  current : List (String × String)
  progress : Nat

/-- One iteration of the execute_workflow dispatch loop (lines 115-162):
unregistered names record an error and continue without a TaskExecution
record; registered agents get an in-progress record that is finalised as
completed (result captured) or failed (`"Task failed: " ++ str(e)`) and
moved to the queue and completed list. -/
def executeWorkflowStep (agents : List (String × AgentFn ρ))
    (acc : WfAcc ρ) (item : String × TaskDict) : WfAcc ρ :=
  let agent_name := item.1
  let task_assignment := item.2
  match agents.lookup agent_name with
  | none =>
    { acc with errors := acc.errors ++ [(agent_name, notRegisteredMsg agent_name)] }
  | some agent =>
    let te0 : TaskExecution ρ :=
      { task_id := agent_name ++ "_" ++ toString (acc.queue.length + 1)
        agent_name := agent_name
        task_assignment := task_assignment
        status := .in_progress }
    match agent task_assignment with
    | .ok result =>
      let te := { te0 with status := .completed, result := some result }
      { results := acc.results ++ [(agent_name, result)]
        errors := acc.errors
        queue := acc.queue ++ [te]
        completed := acc.completed ++ [te]
        current := acc.current.filter (fun p => p.1 ≠ agent_name)
        progress := acc.progress + 1 }
    | .error e =>
      let te := { te0 with status := .failed,
                           error_message := some ("Task failed: " ++ e) }
      { results := acc.results
        errors := acc.errors ++ [(agent_name, "Task failed: " ++ e)]
        queue := acc.queue ++ [te]
        completed := acc.completed ++ [te]
        current := acc.current.filter (fun p => p.1 ≠ agent_name)
        progress := acc.progress + 1 }

/-- AgentOrchestrator.execute_workflow (lines 95-182): dispatch every
assignment in order through the loop, then aggregate the WorkflowResult
(success iff no errors; `success_rate` is `"0%"` when no tasks). -/
def executeWorkflow (st : OrchestratorState ρ)
    (task_assignments : List (String × TaskDict)) :
    WorkflowResult ρ × OrchestratorState ρ :=
  let acc0 : WfAcc ρ :=
    { results := [], errors := []
      queue := st.task_queue
      completed := st.completed_tasks
      current := st.workflow_status.current_tasks
      progress := 0 }
  let acc := task_assignments.foldl (executeWorkflowStep st.agents) acc0
  let success_count := acc.results.length
  let total_count := task_assignments.length
  let wr : WorkflowResult ρ :=
    { success := acc.errors.length == 0
      results := acc.results
      errors := acc.errors
      summary :=
        { total_tasks := total_count
          successful := success_count
          failed := acc.errors.length
          success_rate :=
            if total_count > 0 then fmtPercent success_count total_count else "0%" } }
  (wr,
    { st with
        task_queue := acc.queue
        completed_tasks := acc.completed
        workflow_status :=
          { active := false
            current_tasks := acc.current
            progress := acc.progress
            total_tasks := total_count } })

/-- Result dict of execute_single_task (lines 222-241); absent dict keys
are `none`. -/
structure SingleTaskResult (ρ : Type) where
  success : Bool
  result : Option ρ := none
  error : Option String := none
  agent : Option String := none
deriving Repr, DecidableEq

/-- AgentOrchestrator.execute_single_task (lines 211-241): no TaskExecution
record is created and no orchestrator state is touched; the state is
threaded explicitly to make that preservation provable. -/
def executeSingleTask (st : OrchestratorState ρ) (agent_name : String)
    (task_assignment : TaskDict) : SingleTaskResult ρ × OrchestratorState ρ :=
  match st.agents.lookup agent_name with
  | none =>
    ({ success := false, error := some (notRegisteredMsg agent_name) }, st)
  | some agent =>
    match agent task_assignment with
    | .ok result =>
      ({ success := true, result := some result, agent := some agent_name }, st)
    | .error e =>
      ({ success := false, error := some e, agent := some agent_name }, st)

/-- A candidate object offered to register_agent: each AgentInterface
operation (agent_interface.py lines 38-51) is an optional attribute, so
`hasattr` checks are `Option.isSome`. -/
structure PyAgent (ρ : Type) where
  execute_task : Option (AgentFn ρ)
  get_status : Option String
  get_capabilities : Option (List String)

/-- The AgentInterface protocol obligation (lines 38-51): the candidate
provides all three operations execute_task, get_status, get_capabilities. -/
def satisfiesAgentInterface (a : PyAgent ρ) : Prop :=
  a.execute_task.isSome ∧ a.get_status.isSome ∧ a.get_capabilities.isSome

instance (a : PyAgent ρ) : Decidable (satisfiesAgentInterface a) := by
  unfold satisfiesAgentInterface; infer_instance

/-- Python dict assignment `d[k] = v`: overwrite in place if the key
exists, else append. -/
def dictSet (l : List (String × α)) (k : String) (v : α) : List (String × α) :=
  if l.any (fun p => p.1 == k) then
    l.map (fun p => if p.1 == k then (k, v) else p)
  else l ++ [(k, v)]

/-- AgentOrchestrator.register_agent (lines 76-93): raise ValueError when
the candidate lacks execute_task, otherwise bind it in the registry
(capabilities logging has no state effect). -/
def registerAgent (agents : List (String × PyAgent ρ)) (agent_name : String)
    (agent_instance : PyAgent ρ) : Except String (List (String × PyAgent ρ)) :=
  if agent_instance.execute_task.isNone then
    .error ("Agent " ++ agent_name ++ " must implement execute_task method")
  else
    .ok (dictSet agents agent_name agent_instance)

end Orch

namespace Proto

/-! ## src/protocols/base_agent.py and src/agents/cto/cto_agent.py -/

/-- AgentRole enum (base_agent.py lines 11-19). -/
inductive Role
  | cto
  | coding
  | testing
  | security
  | dataRole
  | docRole
  | devops
  | finance
deriving Repr, DecidableEq

/-- A value stored in an AgentMessage content dict: the CTO hub only ever
stores strings, booleans, and string-to-string task dicts there. -/
inductive ContentVal
  | s (v : String)
  | b (v : Bool)
  | dict (v : List (String × String))
deriving Repr, DecidableEq

/-- AgentMessage dataclass (base_agent.py lines 21-28). -/
structure AgentMessage where
  sender : Role
  receiver : Role
  message_type : String
  content : List (String × ContentVal)
  priority : Nat := 1
  trace_id : Option String := none
deriving Repr, DecidableEq

/-- The task_map of CTOAgent._determine_target_agent (cto_agent.py
lines 153-164). -/
def taskMap : List (String × Role) :=
  [("code", .coding), ("test", .testing), ("security", .security),
   ("data", .dataRole), ("documentation", .docRole),
   ("deployment", .devops), ("finance", .finance)]

/-- CTOAgent._determine_target_agent: `task_map.get(task_type, AgentRole.CTO)`. -/
def determineTargetAgent (task_type : String) : Role :=
  (taskMap.lookup task_type).getD .cto

/-- `message.content.get("task", {})` at cto_agent.py line 89, followed by
`.get` access on the value: `none` models the AttributeError Python raises
when a non-dict value is stored under "task". -/
def getTaskDict (content : List (String × ContentVal)) :
    Option (List (String × String)) :=
  match content.lookup "task" with
  | none => some []
  | some (.dict d) => some d
  | some _ => none

/-- An error reply from the hub (sender is the CTO role, receiver the
original sender), as built at cto_agent.py lines 47-52, 92-98, 109-114. -/
def mkError (dest : Role) (msg : String) : AgentMessage :=
  { sender := .cto, receiver := dest, message_type := "error"
    content := [("error", ContentVal.s msg)] }

/-- CTOAgent._handle_task_request (cto_agent.py lines 87-114): reject a
missing-or-falsy task type, else resolve the target role and either emit a
task_assignment toward it (when it is a registered subordinate) or an
error back to the sender. -/
def handleTaskRequest (subordinates : List Role) (message : AgentMessage) :
    Option AgentMessage :=
  match getTaskDict message.content with
  | none => none
  | some task =>
    match task.lookup "type" with
    | none => some (mkError message.sender "Missing task type")
    | some task_type =>
      if task_type == "" then some (mkError message.sender "Missing task type")
      else
        let target_role := determineTargetAgent task_type
        if subordinates.contains target_role then
          some { sender := .cto, receiver := target_role
                 message_type := "task_assignment"
                 content := [("task", ContentVal.dict task)] }
        else
          some (mkError message.sender
            ("No agent available for task type: " ++ task_type))

/-- CTOAgent.process_message (cto_agent.py lines 35-52) together with its
handlers: route on message_type; status updates are acknowledged, error
reports answered with an error_response (the self-heal side effect does
not change the reply), anything else is an unknown-type error. -/
def processMessage (subordinates : List Role) (message : AgentMessage) :
    Option AgentMessage :=
  if message.message_type == "task_request" then
    handleTaskRequest subordinates message
  else if message.message_type == "status_update" then
    some { sender := .cto, receiver := message.sender, message_type := "ack"
           content := [("received", ContentVal.b true)] }
  else if message.message_type == "error_report" then
    some { sender := .cto, receiver := message.sender
           message_type := "error_response"
           content := [("action", ContentVal.s "self_heal_initiated")] }
  else
    some (mkError message.sender "Unknown message type")

end Proto

namespace Orch

/-- Auxiliary characterization of one dispatch-loop iteration: the result
payload recorded for an assignment entry, when any. -/
def dispatchRes (agents : List (String × AgentFn ρ)) (p : String × TaskDict) : Option ρ :=
  match agents.lookup p.1 with
  | none => none
  | some agent =>
    match agent p.2 with
    | .ok r => some r
    | .error _ => none

/-- Auxiliary characterization of one dispatch-loop iteration: the error
string recorded for an assignment entry, when any. -/
def dispatchErr (agents : List (String × AgentFn ρ)) (p : String × TaskDict) :
    Option String :=
  match agents.lookup p.1 with
  | none => some (notRegisteredMsg p.1)
  | some agent =>
    match agent p.2 with
    | .ok _ => none
    | .error e => some ("Task failed: " ++ e)

end Orch

namespace Scenario

/-- A concrete successful tester agent, for end-to-end scenario 3. -/
def testerAgent : Orch.AgentFn String := fun _ => Except.ok "tests passed"

/-- Fresh orchestrator with only the tester agent registered. -/
def orchState : Orch.OrchestratorState String :=
  { agents := [("tester", testerAgent)]
    task_queue := []
    completed_tasks := []
    workflow_status := { active := false, current_tasks := [], progress := 0, total_tasks := 0 } }

/-- Scenario-3 assignments: a backend name with no registered agent plus
the registered tester. -/
def assignments : List (String × Orch.TaskDict) :=
  [("backend_role", [("task", "implement the api")]),
   ("tester", [("task", "test the api")])]

/-- A candidate agent providing execute_task but neither get_status nor
get_capabilities. -/
def soloAgent : Orch.PyAgent String :=
  { execute_task := some (fun _ => Except.ok "done")
    get_status := none
    get_capabilities := none }

end Scenario

/-! ## Theorems -/

/-- Auxiliary: the tester entry the decomposition always appends, as a
function of the analysis complexity. -/
lemma lookup_tester_decompose (analysis : Legacy.ProjectAnalysis) :
    (Legacy.decomposeAndAssign analysis).lookup "tester" =
      some (Legacy.TaskAssignment.mk "Software Tester" "Test code"
        ("Perform " ++
          (if analysis.complexity == "high" then
            "comprehensive unit and integration tests with performance and load testing"
          else if analysis.complexity == "low" then
            "basic unit tests and functionality verification"
          else "comprehensive unit and integration tests") ++
          " on all implemented components")) := by
  unfold Legacy.decomposeAndAssign
  by_cases h1 : "authentication" ∈ analysis.features <;>
    by_cases h2 : "database" ∈ analysis.features <;>
      by_cases h3 : "api" ∈ analysis.features <;>
        by_cases h4 : "frontend" ∈ analysis.features <;>
          simp [h1, h2, h3, h4, List.lookup, Legacy.testerCapability]

/-- Auxiliary: the dispatch loop appends to the results dict exactly the
entries whose dispatch outcome is a result payload. -/
lemma wf_foldl_results {ρ : Type} (agents : List (String × Orch.AgentFn ρ))
    (l : List (String × Orch.TaskDict)) :
    ∀ acc : Orch.WfAcc ρ,
      (l.foldl (Orch.executeWorkflowStep agents) acc).results =
        acc.results ++
          l.filterMap (fun p => (Orch.dispatchRes agents p).map (fun r => (p.1, r))) := by
  induction l with
  | nil => intro acc; simp
  | cons p t ih =>
    intro acc
    rw [List.foldl_cons, ih]
    unfold Orch.executeWorkflowStep Orch.dispatchRes
    cases hl : agents.lookup p.1 with
    | none => simp [hl]
    | some agent =>
      cases hr : agent p.2 with
      | ok r => simp [hl, hr]
      | error e => simp [hl, hr]

/-- Auxiliary: the dispatch loop appends to the errors dict exactly the
entries whose dispatch outcome is an error string. -/
lemma wf_foldl_errors {ρ : Type} (agents : List (String × Orch.AgentFn ρ))
    (l : List (String × Orch.TaskDict)) :
    ∀ acc : Orch.WfAcc ρ,
      (l.foldl (Orch.executeWorkflowStep agents) acc).errors =
        acc.errors ++
          l.filterMap (fun p => (Orch.dispatchErr agents p).map (fun e => (p.1, e))) := by
  induction l with
  | nil => intro acc; simp
  | cons p t ih =>
    intro acc
    rw [List.foldl_cons, ih]
    unfold Orch.executeWorkflowStep Orch.dispatchErr
    cases hl : agents.lookup p.1 with
    | none => simp [hl]
    | some agent =>
      cases hr : agent p.2 with
      | ok r => simp [hl, hr]
      | error e => simp [hl, hr]

/-- Auxiliary: the dispatch loop only ever appends to the completed list. -/
lemma wf_foldl_completed_mono {ρ : Type} (agents : List (String × Orch.AgentFn ρ))
    (l : List (String × Orch.TaskDict)) :
    ∀ acc : Orch.WfAcc ρ,
      acc.completed <+: (l.foldl (Orch.executeWorkflowStep agents) acc).completed := by
  induction l with
  | nil => intro acc; exact List.prefix_refl _
  | cons p t ih =>
    intro acc
    rw [List.foldl_cons]
    refine List.IsPrefix.trans ?_ (ih _)
    unfold Orch.executeWorkflowStep
    cases hl : agents.lookup p.1 with
    | none => simp [hl]
    | some agent =>
      cases hr : agent p.2 with
      | ok r => simp [hl, hr, List.prefix_append]
      | error e => simp [hl, hr, List.prefix_append]

/-- Auxiliary: every registered assignment entry leaves a TaskExecution
record on the completed list, completed on success and failed (with the
captured message) on a raised error. -/
lemma wf_foldl_completed_mem {ρ : Type} (agents : List (String × Orch.AgentFn ρ))
    (l : List (String × Orch.TaskDict)) :
    ∀ (acc : Orch.WfAcc ρ) (n : String) (t : Orch.TaskDict) (ag : Orch.AgentFn ρ),
      (n, t) ∈ l → agents.lookup n = some ag →
      ∃ te, te ∈ (l.foldl (Orch.executeWorkflowStep agents) acc).completed ∧
        te.agent_name = n ∧ te.task_assignment = t ∧
        (∀ r, ag t = Except.ok r →
          te.status = Orch.TaskStatus.completed ∧ te.result = some r) ∧
        (∀ e, ag t = Except.error e →
          te.status = Orch.TaskStatus.failed ∧
          te.error_message = some ("Task failed: " ++ e)) := by
  induction l with
  | nil => intro acc n t ag hmem; exact absurd hmem (List.not_mem_nil _)
  | cons p rest ih =>
    intro acc n t ag hmem hreg
    rw [List.foldl_cons]
    rcases List.mem_cons.mp hmem with hhead | htail
    · subst hhead
      have hpre := wf_foldl_completed_mono agents rest
        (Orch.executeWorkflowStep agents acc (n, t))
      cases hr : ag t with
      | ok r =>
        refine ⟨{ task_id := n ++ "_" ++ toString (acc.queue.length + 1),
                  agent_name := n, task_assignment := t,
                  status := Orch.TaskStatus.completed, result := some r },
          hpre.subset ?_, rfl, rfl, fun r' hr' => ?_, fun e' he' => ?_⟩
        · unfold Orch.executeWorkflowStep
          simp [hreg, hr]
        · cases hr'
          exact ⟨rfl, rfl⟩
        · cases he'
      | error e =>
        refine ⟨{ task_id := n ++ "_" ++ toString (acc.queue.length + 1),
                  agent_name := n, task_assignment := t,
                  status := Orch.TaskStatus.failed,
                  error_message := some ("Task failed: " ++ e) },
          hpre.subset ?_, rfl, rfl, fun r' hr' => ?_, fun e' he' => ?_⟩
        · unfold Orch.executeWorkflowStep
          simp [hreg, hr]
        · cases hr'
        · cases he'
          exact ⟨rfl, rfl⟩
    · exact ih (Orch.executeWorkflowStep agents acc p) n t ag htail hreg

/-- Auxiliary: each assignment entry contributes to exactly one of the
results and errors dicts. -/
lemma dispatch_res_err_exclusive {ρ : Type} (agents : List (String × Orch.AgentFn ρ))
    (p : String × Orch.TaskDict) :
    (Orch.dispatchRes agents p).isSome = (Orch.dispatchErr agents p).isNone := by
  unfold Orch.dispatchRes Orch.dispatchErr
  cases hl : agents.lookup p.1 with
  | none => rfl
  | some agent =>
    cases hr : agent p.2 with
    | ok r => simp [hr]
    | error e => simp [hr]

lemma wf_counts {ρ : Type} (agents : List (String × Orch.AgentFn ρ))
    (l : List (String × Orch.TaskDict)) :
    (l.filterMap (fun p => (Orch.dispatchRes agents p).map (fun r => (p.1, r)))).length +
      (l.filterMap (fun p => (Orch.dispatchErr agents p).map (fun e => (p.1, e)))).length
      = l.length := by
  induction l with
  | nil => rfl
  | cons p t ih =>
    have hex := dispatch_res_err_exclusive agents p
    simp only [List.filterMap_cons]
    cases hres : Orch.dispatchRes agents p with
    | none =>
      cases herr : Orch.dispatchErr agents p with
      | none => rw [hres, herr] at hex; simp at hex
      | some e =>
        simp only [Option.map_none', Option.map_some', List.length_cons]
        omega
    | some r =>
      cases herr : Orch.dispatchErr agents p with
      | none =>
        simp only [Option.map_none', Option.map_some', List.length_cons]
        omega
      | some e => rw [hres, herr] at hex; simp at hex

/-- Auxiliary: looking up a key of an association list built by filterMap
over entries with distinct keys finds the image of that key's entry. -/
lemma lookup_filterMap_of_nodup {β γ : Type} (g : String × β → Option γ) :
    ∀ (l : List (String × β)), (l.map Prod.fst).Nodup →
      ∀ (n : String) (t : β) (c : γ), (n, t) ∈ l → g (n, t) = some c →
      (l.filterMap (fun p => (g p).map (fun v => (p.1, v)))).lookup n = some c := by
  intro l
  induction l with
  | nil => intro _ n t c hmem; exact absurd hmem (List.not_mem_nil _)
  | cons p rest ih =>
    intro hnd n t c hmem hg
    have hnd' := hnd
    rw [List.map_cons, List.nodup_cons] at hnd'
    rcases List.mem_cons.mp hmem with rfl | htail
    · simp [List.filterMap_cons, hg]
    · have hn : n ∈ rest.map Prod.fst := List.mem_map.mpr ⟨(n, t), htail, rfl⟩
      have hne : p.1 ≠ n := fun he => hnd'.1 (he ▸ hn)
      have hbne : (n == p.1) = false := beq_eq_false_iff_ne.mpr (Ne.symm hne)
      cases hgp : g p with
      | none =>
        simp only [List.filterMap_cons, hgp, Option.map_none]
        exact ih hnd'.2 n t c htail hg
      | some d =>
        have hrec := ih hnd'.2 n t c htail hg
        simp [List.filterMap_cons, hgp, List.lookup_cons, hbne, hrec]

/-- C3: the claim predicts features = {authentication} for the scenario
input ("web application" allegedly not matching the frontend keywords) and
no frontend assignment; the code's frontend keyword list contains "web"
and its security list contains "secure", so the analyzer also detects
frontend and security, and the decomposition does produce a frontend
(coder2) assignment. -/
theorem analyzer_scenario1_counterexample :
    (Legacy.analyzePrompt "Create a web application with user authentication and secure login functionality").features ≠ ["authentication"] ∧
    "frontend" ∈ (Legacy.analyzePrompt "Create a web application with user authentication and secure login functionality").features ∧
    (Legacy.decomposeAndAssign (Legacy.analyzePrompt "Create a web application with user authentication and secure login functionality")).lookup "coder2" ≠ none := by
  refine ⟨by decide, by decide, by decide⟩

/-- C3 (amended): on the scenario input the analyzer detects
features = [authentication, frontend, security] ("web" triggers frontend
and "secure" triggers security), and the decomposition yields exactly a
backend assignment with description "Implement user authentication and
authorization system", a frontend assignment (with login/signup forms
appended), and a tester assignment. -/
theorem analyzer_scenario1_amended :
    (Legacy.analyzePrompt "Create a web application with user authentication and secure login functionality").features = ["authentication", "frontend", "security"] ∧
    (Legacy.decomposeAndAssign (Legacy.analyzePrompt "Create a web application with user authentication and secure login functionality")).map Prod.fst = ["coder1", "coder2", "tester"] ∧
    (Legacy.decomposeAndAssign (Legacy.analyzePrompt "Create a web application with user authentication and secure login functionality")).lookup "coder1" =
      some (Legacy.TaskAssignment.mk "Senior Backend Developer" "Write code"
        "Implement user authentication and authorization system") ∧
    (Legacy.decomposeAndAssign (Legacy.analyzePrompt "Create a web application with user authentication and secure login functionality")).lookup "coder2" =
      some (Legacy.TaskAssignment.mk "Frontend Developer" "Write code"
        "Develop responsive user interface and client-side functionality including login/signup forms") ∧
    (Legacy.decomposeAndAssign (Legacy.analyzePrompt "Create a web application with user authentication and secure login functionality")).lookup "tester" =
      some (Legacy.TaskAssignment.mk "Software Tester" "Test code"
        "Perform comprehensive unit and integration tests on all implemented components") := by
  refine ⟨by decide, by decide, by decide, by decide, by decide⟩

/-- C4: the analysis step fails on empty or whitespace-only input with the
empty-input error and never yields an analysis; on any other input it
returns an analysis. -/
theorem analyze_empty_input (text : String) :
    (strStrip text = "" → Legacy.analyze text = .error "User prompt cannot be empty") ∧
    (strStrip text ≠ "" → ∃ a, Legacy.analyze text = .ok a) := by
  constructor
  · intro h
    simp [Legacy.analyze, h]
  · intro h
    have hne : text ≠ "" := by
      intro he
      exact h (by rw [he]; rfl)
    simp [Legacy.analyze, h, hne]

/-- Witness for `analyze_empty_input` at the inputs "   " and
"Build an app". -/
theorem analyze_empty_input_witness :
    Legacy.analyze "   " = .error "User prompt cannot be empty" ∧
    ∃ a, Legacy.analyze "Build an app" = .ok a := by
  constructor
  · exact (analyze_empty_input "   ").1 (by decide)
  · exact (analyze_empty_input "Build an app").2 (by decide)

/-- C7 (counterexample): the claim predicts complexity "high" when keywords
of both complexity sets are present; on "simple and complex" the code
checks the low-complexity set first and classifies complexity "low". -/
theorem complexity_precedence_counterexample :
    strContains (strLower "simple and complex") "simple" = true ∧
    strContains (strLower "simple and complex") "complex" = true ∧
    (Legacy.analyzePrompt "simple and complex").complexity = "low" ∧
    (Legacy.analyzePrompt "simple and complex").complexity ≠ "high" := by
  refine ⟨by decide, by decide, by decide, by decide⟩

/-- C7 (amended): urgency is "high" when any urgency keyword occurs in the
lowered text (regardless of deferral keywords), "low" when only a deferral
keyword occurs, else "normal"; complexity gives the LOW keyword set
precedence — "low" when any low-complexity keyword occurs (even if a
high-complexity keyword also occurs), "high" when only a high-complexity
keyword occurs, else "medium". -/
theorem urgency_complexity_classification (text : String) :
    (Legacy.urgencyKeywords.any (fun w => strContains (strLower text) w) = true →
      (Legacy.analyzePrompt text).urgency = "high") ∧
    (Legacy.urgencyKeywords.any (fun w => strContains (strLower text) w) = false →
      Legacy.deferralKeywords.any (fun w => strContains (strLower text) w) = true →
      (Legacy.analyzePrompt text).urgency = "low") ∧
    (Legacy.urgencyKeywords.any (fun w => strContains (strLower text) w) = false →
      Legacy.deferralKeywords.any (fun w => strContains (strLower text) w) = false →
      (Legacy.analyzePrompt text).urgency = "normal") ∧
    (Legacy.lowComplexityKeywords.any (fun w => strContains (strLower text) w) = true →
      (Legacy.analyzePrompt text).complexity = "low") ∧
    (Legacy.lowComplexityKeywords.any (fun w => strContains (strLower text) w) = false →
      Legacy.highComplexityKeywords.any (fun w => strContains (strLower text) w) = true →
      (Legacy.analyzePrompt text).complexity = "high") ∧
    (Legacy.lowComplexityKeywords.any (fun w => strContains (strLower text) w) = false →
      Legacy.highComplexityKeywords.any (fun w => strContains (strLower text) w) = false →
      (Legacy.analyzePrompt text).complexity = "medium") := by
  refine ⟨fun h1 => ?_, fun h1 h2 => ?_, fun h1 h2 => ?_,
    fun h1 => ?_, fun h1 h2 => ?_, fun h1 h2 => ?_⟩ <;>
    · first
      | (simp only [Legacy.analyzePrompt, h1, h2]; simp)
      | (simp only [Legacy.analyzePrompt, h1]; simp)

/-- Witness for `urgency_complexity_classification` on the input
"urgent but simple, later maybe complex". -/
theorem urgency_complexity_classification_witness :
    (Legacy.analyzePrompt "urgent but simple, later maybe complex").urgency = "high" ∧
    (Legacy.analyzePrompt "urgent but simple, later maybe complex").complexity = "low" := by
  constructor
  · exact (urgency_complexity_classification "urgent but simple, later maybe complex").1 (by decide)
  · exact (urgency_complexity_classification "urgent but simple, later maybe complex").2.2.2.1 (by decide)

/-- C5: for every ProjectAnalysis (whatever the feature set), the
decomposition contains a tester assignment, and its description follows
the analysis complexity: high extends the comprehensive scope with
performance and load testing, low is the basic scope, medium is the
comprehensive scope. -/
theorem decompose_always_assigns_tester (analysis : Legacy.ProjectAnalysis) :
    ((Legacy.decomposeAndAssign analysis).lookup "tester").isSome = true ∧
    (analysis.complexity = "high" →
      (Legacy.decomposeAndAssign analysis).lookup "tester" =
        some (Legacy.TaskAssignment.mk "Software Tester" "Test code"
          "Perform comprehensive unit and integration tests with performance and load testing on all implemented components")) ∧
    (analysis.complexity = "low" →
      (Legacy.decomposeAndAssign analysis).lookup "tester" =
        some (Legacy.TaskAssignment.mk "Software Tester" "Test code"
          "Perform basic unit tests and functionality verification on all implemented components")) ∧
    (analysis.complexity = "medium" →
      (Legacy.decomposeAndAssign analysis).lookup "tester" =
        some (Legacy.TaskAssignment.mk "Software Tester" "Test code"
          "Perform comprehensive unit and integration tests on all implemented components")) := by
  have key := lookup_tester_decompose analysis
  refine ⟨by rw [key]; rfl, fun h => ?_, fun h => ?_, fun h => ?_⟩ <;>
    rw [key] <;> simp [h]

/-- Witness for `decompose_always_assigns_tester` at an analysis with an
empty feature set and medium complexity. -/
theorem decompose_always_assigns_tester_witness :
    (Legacy.decomposeAndAssign
        (Legacy.ProjectAnalysis.mk [] [] "normal" "medium" "")).lookup "tester" =
      some (Legacy.TaskAssignment.mk "Software Tester" "Test code"
        "Perform comprehensive unit and integration tests on all implemented components") :=
  (decompose_always_assigns_tester
    (Legacy.ProjectAnalysis.mk [] [] "normal" "medium" "")).2.2.2 rfl

/-- C6: the execution order is the agent names sorted by the fixed action
priority (Write code ↦ 1, Test code ↦ 3, anything else ↦ 999, sorting
last), the sort is a stable permutation (entries with equal priority keep
their relative order), and on the assignments A ↦ Test code,
B ↦ Write code, C ↦ Write code (inserted in that order) the order is
B, C, A. -/
theorem execution_order_stable_priority :
    (Legacy.actionPriority "Write code" = 1 ∧ Legacy.actionPriority "Test code" = 3 ∧
      ∀ a : String, a ≠ "Write code" → a ≠ "Test code" → Legacy.actionPriority a = 999) ∧
    (∀ l : List (String × Legacy.TaskAssignment),
      (Legacy.sortedAssignments l).Pairwise
        (fun p q => Legacy.actionPriority p.2.action ≤ Legacy.actionPriority q.2.action) ∧
      List.Perm (Legacy.getExecutionOrder l) (l.map Prod.fst)) ∧
    (∀ (l : List (String × Legacy.TaskAssignment)) (p q : String × Legacy.TaskAssignment),
      List.Sublist [p, q] l →
      Legacy.actionPriority p.2.action ≤ Legacy.actionPriority q.2.action →
      List.Sublist [p, q] (Legacy.sortedAssignments l)) ∧
    Legacy.getExecutionOrder
        [("A", Legacy.TaskAssignment.mk "Software Tester" "Test code" "test it"),
         ("B", Legacy.TaskAssignment.mk "Senior Backend Developer" "Write code" "build it"),
         ("C", Legacy.TaskAssignment.mk "Frontend Developer" "Write code" "style it")]
      = ["B", "C", "A"] := by
  have htrans : ∀ p q r : String × Legacy.TaskAssignment,
      (decide (Legacy.actionPriority p.2.action ≤ Legacy.actionPriority q.2.action)) = true →
      (decide (Legacy.actionPriority q.2.action ≤ Legacy.actionPriority r.2.action)) = true →
      (decide (Legacy.actionPriority p.2.action ≤ Legacy.actionPriority r.2.action)) = true := by
    intro p q r hpq hqr
    simp only [decide_eq_true_eq] at *
    exact le_trans hpq hqr
  have htotal : ∀ p q : String × Legacy.TaskAssignment,
      ((decide (Legacy.actionPriority p.2.action ≤ Legacy.actionPriority q.2.action)) ||
        (decide (Legacy.actionPriority q.2.action ≤ Legacy.actionPriority p.2.action))) = true := by
    intro p q
    simp only [Bool.or_eq_true, decide_eq_true_eq]
    exact Nat.le_total _ _
  refine ⟨⟨rfl, rfl, fun a h1 h2 => ?_⟩, fun l => ⟨?_, ?_⟩, fun l p q hsub hle => ?_, ?_⟩
  · have e1 : (a == "Write code") = false := beq_eq_false_iff_ne.mpr h1
    have e2 : (a == "Test code") = false := beq_eq_false_iff_ne.mpr h2
    simp [Legacy.actionPriority, Legacy.priorityTable, List.lookup, e1, e2]
  · exact (List.sorted_mergeSort htrans htotal l).imp (fun h => of_decide_eq_true h)
  · exact (List.mergeSort_perm l _).map Prod.fst
  · exact List.pair_sublist_mergeSort htrans htotal (decide_eq_true hle) hsub
  · simp [Legacy.getExecutionOrder, Legacy.sortedAssignments, List.mergeSort,
      List.merge, List.lookup, Legacy.actionPriority, Legacy.priorityTable]

/-- Witness for `execution_order_stable_priority`: the stability clause at
a concrete two-element list with equal priorities. -/
theorem execution_order_stable_priority_witness :
    List.Sublist
      [("X", Legacy.TaskAssignment.mk "r1" "Write code" "t1"),
       ("Y", Legacy.TaskAssignment.mk "r2" "Write code" "t2")]
      (Legacy.sortedAssignments
        [("X", Legacy.TaskAssignment.mk "r1" "Write code" "t1"),
         ("Y", Legacy.TaskAssignment.mk "r2" "Write code" "t2")]) := by
  exact execution_order_stable_priority.2.2.1
    [("X", Legacy.TaskAssignment.mk "r1" "Write code" "t1"),
     ("Y", Legacy.TaskAssignment.mk "r2" "Write code" "t2")]
    ("X", Legacy.TaskAssignment.mk "r1" "Write code" "t1")
    ("Y", Legacy.TaskAssignment.mk "r2" "Write code" "t2")
    (List.Sublist.refl _) (le_refl _)

/-- Auxiliary: the errors dict of an execute_workflow run, element-wise. -/
lemma executeWorkflow_errors_eq {ρ : Type} (st : Orch.OrchestratorState ρ)
    (l : List (String × Orch.TaskDict)) :
    (Orch.executeWorkflow st l).1.errors =
      l.filterMap (fun p => (Orch.dispatchErr st.agents p).map (fun e => (p.1, e))) := by
  simp only [Orch.executeWorkflow]
  rw [wf_foldl_errors]
  simp

/-- Auxiliary: the results dict of an execute_workflow run, element-wise. -/
lemma executeWorkflow_results_eq {ρ : Type} (st : Orch.OrchestratorState ρ)
    (l : List (String × Orch.TaskDict)) :
    (Orch.executeWorkflow st l).1.results =
      l.filterMap (fun p => (Orch.dispatchRes st.agents p).map (fun r => (p.1, r))) := by
  simp only [Orch.executeWorkflow]
  rw [wf_foldl_results]
  simp

/-- Auxiliary: the completed list after an execute_workflow run is the loop
fold of the initial state. -/
lemma executeWorkflow_completed_eq {ρ : Type} (st : Orch.OrchestratorState ρ)
    (l : List (String × Orch.TaskDict)) :
    (Orch.executeWorkflow st l).2.completed_tasks =
      (l.foldl (Orch.executeWorkflowStep st.agents)
        { results := [], errors := [], queue := st.task_queue,
          completed := st.completed_tasks,
          current := st.workflow_status.current_tasks, progress := 0 }).completed := by
  simp only [Orch.executeWorkflow]

/-- C1: execute_workflow isolates per-task failures for every assignment
mapping and agent registry: an unregistered name gets the error string
"Agent '<name>' not registered" recorded while the loop continues, a
registered agent that raises gets its task marked Failed with the captured
message while siblings still run and record results, and the run always
returns an aggregated result. -/
theorem executeWorkflow_isolates_per_task_failures {ρ : Type}
    (st : Orch.OrchestratorState ρ) (l : List (String × Orch.TaskDict))
    (hnd : (l.map Prod.fst).Nodup) :
    (∀ n t, (n, t) ∈ l → st.agents.lookup n = none →
      (Orch.executeWorkflow st l).1.errors.lookup n = some (Orch.notRegisteredMsg n)) ∧
    (∀ n t ag e, (n, t) ∈ l → st.agents.lookup n = some ag → ag t = Except.error e →
      (Orch.executeWorkflow st l).1.errors.lookup n = some ("Task failed: " ++ e)) ∧
    (∀ n t ag r, (n, t) ∈ l → st.agents.lookup n = some ag → ag t = Except.ok r →
      (Orch.executeWorkflow st l).1.results.lookup n = some r) ∧
    (∀ n t ag, (n, t) ∈ l → st.agents.lookup n = some ag →
      ∃ te, te ∈ (Orch.executeWorkflow st l).2.completed_tasks ∧ te.agent_name = n ∧
        te.task_assignment = t ∧
        (∀ r, ag t = Except.ok r →
          te.status = Orch.TaskStatus.completed ∧ te.result = some r) ∧
        (∀ e, ag t = Except.error e → te.status = Orch.TaskStatus.failed ∧
          te.error_message = some ("Task failed: " ++ e))) := by
  refine ⟨fun n t hmem hreg => ?_, fun n t ag e hmem hreg herr => ?_,
    fun n t ag r hmem hreg hok => ?_, fun n t ag hmem hreg => ?_⟩
  · rw [executeWorkflow_errors_eq]
    exact lookup_filterMap_of_nodup (fun p => Orch.dispatchErr st.agents p) l hnd n t _
      hmem (by simp [Orch.dispatchErr, hreg])
  · rw [executeWorkflow_errors_eq]
    exact lookup_filterMap_of_nodup (fun p => Orch.dispatchErr st.agents p) l hnd n t _
      hmem (by simp [Orch.dispatchErr, hreg, herr])
  · rw [executeWorkflow_results_eq]
    exact lookup_filterMap_of_nodup (fun p => Orch.dispatchRes st.agents p) l hnd n t _
      hmem (by simp [Orch.dispatchRes, hreg, hok])
  · rw [executeWorkflow_completed_eq]
    exact wf_foldl_completed_mem st.agents l _ n t ag hmem hreg

/-- Witness for `executeWorkflow_isolatesPerTaskFailures`: end-to-end
scenario 3, with only a tester registered and a backend name in the
assignments. -/
theorem executeWorkflow_isolates_per_task_failures_witness :
    (Orch.executeWorkflow Scenario.orchState Scenario.assignments).1.errors.lookup
        "backend_role" = some (Orch.notRegisteredMsg "backend_role") ∧
    (Orch.executeWorkflow Scenario.orchState Scenario.assignments).1.results.lookup
        "tester" = some "tests passed" := by
  have h := executeWorkflow_isolates_per_task_failures Scenario.orchState
    Scenario.assignments (by decide)
  refine ⟨h.1 "backend_role" [("task", "implement the api")] ?_ rfl,
    h.2.2.1 "tester" [("task", "test the api")] Scenario.testerAgent "tests passed" ?_ rfl rfl⟩
  · simp [Scenario.assignments]
  · simp [Scenario.assignments]

/-- C2: for every assignment mapping, the aggregated WorkflowResult counts
every input name exactly once (successful + failed = total), success holds
exactly when the errors mapping is empty, and a zero-task run reports the
success_rate string "0%" instead of dividing by zero. -/
theorem executeWorkflow_summary_invariant {ρ : Type} (st : Orch.OrchestratorState ρ)
    (l : List (String × Orch.TaskDict)) :
    ((Orch.executeWorkflow st l).1.summary.successful +
        (Orch.executeWorkflow st l).1.summary.failed =
      (Orch.executeWorkflow st l).1.summary.total_tasks) ∧
    ((Orch.executeWorkflow st l).1.success = true ↔
      (Orch.executeWorkflow st l).1.errors = []) ∧
    ((Orch.executeWorkflow st l).1.summary.total_tasks = 0 →
      (Orch.executeWorkflow st l).1.summary.success_rate = "0%") := by
  refine ⟨?_, ?_, ?_⟩
  · simp only [Orch.executeWorkflow]
    rw [wf_foldl_results, wf_foldl_errors]
    simpa using wf_counts st.agents l
  · simp only [Orch.executeWorkflow]
    rw [wf_foldl_errors]
    simp [List.length_eq_zero]
  · intro h
    simp only [Orch.executeWorkflow] at h ⊢
    simp [h]

/-- Witness for `executeWorkflow_summary_invariant` at the empty
assignment mapping. -/
theorem executeWorkflow_summary_invariant_witness :
    (Orch.executeWorkflow Scenario.orchState []).1.summary.success_rate = "0%" := by
  exact (executeWorkflow_summary_invariant Scenario.orchState []).2.2 rfl

/-- C10: execute_single_task is total over agent behaviour — it returns a
failure mapping (success false with an error string) both for an
unregistered name and for a raising agent, a success mapping carrying the
agent's result otherwise, and it never touches orchestrator state: no
TaskExecution record is created, so the task queue and completed list are
those of the input state. -/
theorem executeSingleTask_total_and_stateless {ρ : Type} (st : Orch.OrchestratorState ρ)
    (n : String) (t : Orch.TaskDict) :
    ((Orch.executeSingleTask st n t).2 = st) ∧
    (st.agents.lookup n = none →
      (Orch.executeSingleTask st n t).1 =
        { success := false, error := some (Orch.notRegisteredMsg n) }) ∧
    (∀ ag r, st.agents.lookup n = some ag → ag t = Except.ok r →
      (Orch.executeSingleTask st n t).1 =
        { success := true, result := some r, agent := some n }) ∧
    (∀ ag e, st.agents.lookup n = some ag → ag t = Except.error e →
      (Orch.executeSingleTask st n t).1 =
        { success := false, error := some e, agent := some n }) := by
  refine ⟨?_, fun h => ?_, fun ag r hreg hok => ?_, fun ag e hreg herr => ?_⟩
  · unfold Orch.executeSingleTask
    cases hl : st.agents.lookup n with
    | none => rfl
    | some ag =>
      cases hr : ag t with
      | ok r => simp [hr]
      | error e => simp [hr]
  · simp [Orch.executeSingleTask, h]
  · simp [Orch.executeSingleTask, hreg, hok]
  · simp [Orch.executeSingleTask, hreg, herr]

/-- Witness for `executeSingleTask_total_and_stateless` at an unregistered
agent name. -/
theorem executeSingleTask_total_and_stateless_witness :
    (Orch.executeSingleTask Scenario.orchState "ghost" []).2 = Scenario.orchState ∧
    (Orch.executeSingleTask Scenario.orchState "ghost" []).1 =
      { success := false, error := some (Orch.notRegisteredMsg "ghost") } := by
  exact ⟨(executeSingleTask_total_and_stateless Scenario.orchState "ghost" []).1,
    (executeSingleTask_total_and_stateless Scenario.orchState "ghost" []).2.1 rfl⟩

/-- Auxiliary: rewriting every binding of an existing key leaves the new
value at that key. -/
lemma lookup_setAll {α : Type} (k : String) (v : α) :
    ∀ l : List (String × α), l.any (fun p => p.1 == k) = true →
      (l.map (fun p => if p.1 == k then (k, v) else p)).lookup k = some v := by
  intro l
  induction l with
  | nil => intro h; simp at h
  | cons p rest ih =>
    intro h
    obtain ⟨a, b⟩ := p
    by_cases hp : (a == k) = true
    · have he : a = k := by simpa using hp
      subst he
      simp
    · have hne : a ≠ k := by simpa using hp
      have hk : (k == a) = false := beq_eq_false_iff_ne.mpr (Ne.symm hne)
      have ht : rest.any (fun p => p.1 == k) = true := by
        simp only [List.any_cons] at h
        rcases Bool.or_eq_true_iff.mp h with h1 | h1
        · exact absurd h1 hp
        · exact h1
      simp only [List.map_cons]
      rw [if_neg hp, List.lookup_cons, hk]
      exact ih ht

/-- Auxiliary: appending a fresh binding makes it reachable by lookup. -/
lemma lookup_append_missing {α : Type} (k : String) (v : α) :
    ∀ l : List (String × α), l.any (fun p => p.1 == k) = false →
      (l ++ [(k, v)]).lookup k = some v := by
  intro l
  induction l with
  | nil => intro _; simp
  | cons p rest ih =>
    intro h
    obtain ⟨a, b⟩ := p
    simp only [List.any_cons, Bool.or_eq_false_iff] at h
    have hk : (k == a) = false :=
      beq_eq_false_iff_ne.mpr (Ne.symm (beq_eq_false_iff_ne.mp h.1))
    simp [List.lookup_cons, hk, ih h.2]

/-- Auxiliary: Python dict assignment binds the value under the key. -/
lemma lookup_dictSet {α : Type} (l : List (String × α)) (k : String) (v : α) :
    (Orch.dictSet l k v).lookup k = some v := by
  unfold Orch.dictSet
  cases hb : l.any (fun p => p.1 == k) with
  | true =>
    simp only [hb, if_true]
    exact lookup_setAll k v l hb
  | false =>
    simp only [hb, Bool.false_eq_true, if_false]
    exact lookup_append_missing k v l hb

/-- C8 (counterexample): the claim says registration fails exactly when the
candidate does not provide all three AgentInterface operations; the code
only checks execute_task, so a candidate with execute_task but without
get_status and get_capabilities violates the interface contract yet
registers successfully. -/
theorem register_agent_contract_counterexample :
    ¬ Orch.satisfiesAgentInterface Scenario.soloAgent ∧
    Orch.registerAgent ([] : List (String × Orch.PyAgent String)) "solo" Scenario.soloAgent
      = Except.ok [("solo", Scenario.soloAgent)] := by
  constructor
  · intro h
    rcases h with ⟨-, h2, -⟩
    simp [Scenario.soloAgent] at h2
  · rfl

/-- C8 (amended): register_agent raises exactly when the candidate does not
provide execute_task (get_status and get_capabilities are optional); when
execute_task is provided the candidate is bound in the registry under the
given name. -/
theorem register_agent_requires_execute_task {ρ : Type}
    (reg : List (String × Orch.PyAgent ρ)) (name : String) (cand : Orch.PyAgent ρ) :
    (cand.execute_task = none →
      Orch.registerAgent reg name cand =
        Except.error ("Agent " ++ name ++ " must implement execute_task method")) ∧
    (cand.execute_task ≠ none →
      Orch.registerAgent reg name cand = Except.ok (Orch.dictSet reg name cand) ∧
      (Orch.dictSet reg name cand).lookup name = some cand) := by
  constructor
  · intro h
    simp [Orch.registerAgent, h]
  · intro h
    have hs : cand.execute_task.isNone = false := by
      cases hc : cand.execute_task with
      | none => exact absurd hc h
      | some f => rfl
    exact ⟨by simp [Orch.registerAgent, hs], lookup_dictSet reg name cand⟩

/-- Witness for `register_agent_requires_execute_task` at the solo
candidate registered into the empty registry. -/
theorem register_agent_requires_execute_task_witness :
    Orch.registerAgent ([] : List (String × Orch.PyAgent String)) "solo" Scenario.soloAgent
      = Except.ok (Orch.dictSet [] "solo" Scenario.soloAgent) ∧
    (Orch.dictSet ([] : List (String × Orch.PyAgent String)) "solo"
      Scenario.soloAgent).lookup "solo" = some Scenario.soloAgent := by
  exact (register_agent_requires_execute_task [] "solo" Scenario.soloAgent).2
    (by simp [Scenario.soloAgent])

/-- C9: the CTO hub routes messages by type — a task_request without a task
type yields an error back to the sender; one whose type resolves to a
registered subordinate role yields a task_assignment addressed to that
role carrying the task; one whose resolved role is not registered yields
an error; a status_update yields an ack; an error_report yields an
error_response; any other message_type yields an unknown-type error. -/
theorem cto_hub_message_routing (subs : List Proto.Role) (msg : Proto.AgentMessage)
    (task : List (String × String)) :
    (msg.message_type = "task_request" → Proto.getTaskDict msg.content = some task →
      ((task.lookup "type" = none →
        Proto.processMessage subs msg = some (Proto.mkError msg.sender "Missing task type")) ∧
      (∀ tt, task.lookup "type" = some tt → tt ≠ "" →
        (subs.contains (Proto.determineTargetAgent tt) = true →
          Proto.processMessage subs msg =
            some { sender := Proto.Role.cto, receiver := Proto.determineTargetAgent tt,
                   message_type := "task_assignment",
                   content := [("task", Proto.ContentVal.dict task)] }) ∧
        (subs.contains (Proto.determineTargetAgent tt) = false →
          Proto.processMessage subs msg =
            some (Proto.mkError msg.sender
              ("No agent available for task type: " ++ tt)))))) ∧
    (msg.message_type = "status_update" →
      Proto.processMessage subs msg =
        some { sender := Proto.Role.cto, receiver := msg.sender, message_type := "ack",
               content := [("received", Proto.ContentVal.b true)] }) ∧
    (msg.message_type = "error_report" →
      Proto.processMessage subs msg =
        some { sender := Proto.Role.cto, receiver := msg.sender,
               message_type := "error_response",
               content := [("action", Proto.ContentVal.s "self_heal_initiated")] }) ∧
    (msg.message_type ∉ ["task_request", "status_update", "error_report"] →
      Proto.processMessage subs msg = some (Proto.mkError msg.sender "Unknown message type")) := by
  refine ⟨fun hmt htask => ⟨fun hty => ?_, fun tt hty htt => ⟨fun hc => ?_, fun hc => ?_⟩⟩,
    fun hmt => ?_, fun hmt => ?_, fun hmt => ?_⟩
  · simp [Proto.processMessage, hmt, Proto.handleTaskRequest, htask, hty]
  · have he : (tt == "") = false := beq_eq_false_iff_ne.mpr htt
    have hm : Proto.determineTargetAgent tt ∈ subs := by simpa using hc
    simp [Proto.processMessage, hmt, Proto.handleTaskRequest, htask, hty, he, hm]
  · have he : (tt == "") = false := beq_eq_false_iff_ne.mpr htt
    have hm : Proto.determineTargetAgent tt ∉ subs := by simpa using hc
    simp [Proto.processMessage, hmt, Proto.handleTaskRequest, htask, hty, he, hm]
  · simp [Proto.processMessage, hmt]
  · simp [Proto.processMessage, hmt]
  · have h1 : msg.message_type ≠ "task_request" := fun he => hmt (by simp [he])
    have h2 : msg.message_type ≠ "status_update" := fun he => hmt (by simp [he])
    have h3 : msg.message_type ≠ "error_report" := fun he => hmt (by simp [he])
    simp [Proto.processMessage, beq_eq_false_iff_ne.mpr h1,
      beq_eq_false_iff_ne.mpr h2, beq_eq_false_iff_ne.mpr h3]

/-- Witness for `cto_hub_message_routing`: a task_request of type "test"
routed to the registered testing subordinate. -/
theorem cto_hub_message_routing_witness :
    Proto.processMessage [Proto.Role.testing]
      { sender := Proto.Role.coding, receiver := Proto.Role.cto,
        message_type := "task_request",
        content := [("task", Proto.ContentVal.dict [("type", "test")])] } =
      some { sender := Proto.Role.cto, receiver := Proto.Role.testing,
             message_type := "task_assignment",
             content := [("task", Proto.ContentVal.dict [("type", "test")])] } := by
  have h := cto_hub_message_routing [Proto.Role.testing]
    { sender := Proto.Role.coding, receiver := Proto.Role.cto,
      message_type := "task_request",
      content := [("task", Proto.ContentVal.dict [("type", "test")])] }
    [("type", "test")]
  exact ((h.1 rfl rfl).2 "test" rfl (by decide)).1 (by decide)
